import Mathlib

/-!
Shallow embedding of `sample_client.py` from uor-community/sample-client-python.

The program is a small CLI gRPC client with two commands, `pull` and `push`,
that build request messages and issue a single synchronous RPC over a Unix
domain socket.  External collaborators (the docker credential library, the
gRPC transport, the process working directory and environment) are modelled
as explicit parameters; the repository's own logic (collection building,
auth-config construction, request assembly, response unwrapping, socket
address resolution) is translated directly from the source.
-/

namespace SampleClientPy

/-- JSON-compatible scalar values as carried in protobuf `Struct` fields
(the attribute dictionaries of the source only use booleans, but the
`Struct` type admits strings and numbers as well). -/
inductive PyValue where
  | boolVal : Bool → PyValue
  | strVal : String → PyValue
  | numVal : Int → PyValue
  deriving DecidableEq, Repr

/-- A protobuf `Struct`: string-keyed fields in insertion order
(mirroring a Python dict's ordered key/value pairs). -/
abbrev Struct := List (String × PyValue)

/-- Setting one field of a `Struct`: replace the value if the key is
present, otherwise append the new field (Python dict assignment). -/
def setField (s : Struct) (k : String) (v : PyValue) : Struct :=
  if s.any (fun p => p.1 = k) then
    s.map (fun p => if p.1 = k then (k, v) else p)
  else
    s ++ [(k, v)]

/-- `Struct.update(d)`: set each key/value pair of the dictionary `d`
in turn (protobuf's `Struct.update` has dict-update semantics). -/
def structUpdate (s : Struct) (d : List (String × PyValue)) : Struct :=
  d.foldl (fun acc kv => setField acc kv.1 kv.2) s

/-- `pb2.File`: one file rule, a glob pattern together with its
attribute struct (source line 38: `pb2.File(file=pattern, attributes=attributes_struct)`). -/
structure File where
  file : String
  attributes : Struct
  deriving DecidableEq, Repr

/-- `pb2.Collection`: a list of file rules (source line 41). -/
structure Collection where
  files : List File
  deriving DecidableEq, Repr

/-- The hard-coded pattern → attribute table (source lines 14–21). -/
def attributes_by_pattern : List (String × List (String × PyValue)) :=
  [("*.jpg", [("images", PyValue.boolVal true)]),
   ("*.json", [("metadata", PyValue.boolVal true)])]

/-- The loop body of `create_collection` (source lines 28–41), over an
arbitrary pattern → attribute table: for each entry build an attribute
struct via `Struct.update` and append one `File` record to the list. -/
def create_collection_table
    (table : List (String × List (String × PyValue))) : Collection :=
  Collection.mk (table.foldl
    (fun files_list e => files_list ++ [File.mk e.1 (structUpdate [] e.2)])
    [])

/-- `create_collection` (source lines 24–41): the loop applied to the
static `attributes_by_pattern` table. -/
def create_collection : Collection :=
  create_collection_table attributes_by_pattern

/-- Credentials as returned by the docker library's `resolve_authconfig`
(a dict with `username` and `password` entries, source lines 56–57). -/
structure Creds where
  username : String
  password : String
  deriving DecidableEq, Repr

/-- `pb2.AuthConfig` (source lines 54–58). -/
structure AuthConfig where
  server_address : String
  username : String
  password : String
  deriving DecidableEq, Repr

/-- The external docker auth library (`auth.load_config`,
`auth.resolve_repository_name`, `auth.resolve_authconfig`), abstracted:
`resolveRegistry` maps a reference string to its registry host, and
`lookupCreds` consults the local credential store for that host,
returning the matching entry when one exists. -/
structure DockerAuthEnv where
  resolveRegistry : String → String
  lookupCreds : String → Option Creds

/-- `create_auth_config` (source lines 44–59): resolve the registry host
from the reference, look up credentials; when found, return an
`AuthConfig` with `server_address = "https://" ++ registry` and the
stored username/password; otherwise the function falls through and
returns nothing. -/
def create_auth_config (env : DockerAuthEnv) (reference : String) :
    Option AuthConfig :=
  let registry := env.resolveRegistry reference
  match env.lookupCreds registry with
  | some creds =>
      some (AuthConfig.mk ("https://" ++ registry) creds.username creds.password)
  | none => none

/-- Log levels used by the client (`logging.debug`, `logging.info`). -/
inductive LogLevel where
  | debug
  | info
  deriving DecidableEq, Repr

/-- One emitted log record. -/
structure LogEntry where
  level : LogLevel
  msg : String
  deriving DecidableEq, Repr

/-- A path is absolute when it begins with the separator `/`
(Python's `os.path.isabs` on POSIX). -/
def isAbsolute (s : String) : Bool :=
  match s.data with
  | [] => false
  | c :: _ => c = '/'

/-- `os.path.abspath` (Python standard library, external): a relative
path is resolved against the process working directory; an absolute
path is returned as is (path normalisation is not modelled, as no claim
depends on it). -/
def abspath (cwd path : String) : String :=
  if isAbsolute path then path else cwd ++ "/" ++ path

/-- `pb2.Retrieve.Request` (source lines 108–113). -/
structure RetrieveRequest where
  source : String
  destination : String
  filter : Struct
  auth : Option AuthConfig
  deriving DecidableEq, Repr

/-- `Retrieve.Response`: an ordered list of content digests. -/
structure RetrieveResponse where
  digests : List String
  deriving DecidableEq, Repr

/-- `pb2.Publish.Request` (source lines 152–157). -/
structure PublishRequest where
  source : String
  destination : String
  collection : Collection
  auth : Option AuthConfig
  deriving DecidableEq, Repr

/-- `Publish.Response`: a single digest string. -/
structure PublishResponse where
  digest : String
  deriving DecidableEq, Repr

/-- An RPC-layer failure (connection refused, server error, …),
carried opaquely: the client never inspects it. -/
structure GrpcError where
  msg : String
  deriving DecidableEq, Repr

/-- What `pull` yields on a successful RPC: its return value (a digest
string, or nothing) together with the log records it emitted. -/
structure PullOutput where
  result : Option String
  logs : List LogEntry
  deriving DecidableEq, Repr

/-- The `Retrieve.Request` that `pull` assembles (source lines 99–113):
attribute filter struct from the optional `attributes` dict, workspace
resolved to an absolute path, auth config from the credential resolver. -/
def pullRequest (env : DockerAuthEnv) (cwd reference workspace : String)
    (attributes : Option (List (String × PyValue))) : RetrieveRequest :=
  let attribute_struct : Struct :=
    match attributes with
    | none => []
    | some attrs => structUpdate [] attrs
  let abs_workspace := abspath cwd workspace
  let auth_config := create_auth_config env reference
  RetrieveRequest.mk reference abs_workspace attribute_struct auth_config

/-- `SampleClient.pull` (source lines 77–124).  The gRPC stub is the
parameter `rpc`; a transport or server failure is an `Except.error`,
which the method does not catch.  On a response with no digests it logs
an informational message and returns nothing; otherwise it returns the
digests joined by newline. -/
def pull (env : DockerAuthEnv)
    (rpc : RetrieveRequest → Except GrpcError RetrieveResponse)
    (cwd reference workspace : String)
    (attributes : Option (List (String × PyValue))) :
    Except GrpcError PullOutput :=
  let req := pullRequest env cwd reference workspace attributes
  let debug_log := LogEntry.mk LogLevel.debug
    ("Using output directory " ++ req.destination)
  match rpc req with
  | Except.error e => Except.error e
  | Except.ok resp =>
      if resp.digests.length = 0 then
        Except.ok (PullOutput.mk none
          [debug_log,
           LogEntry.mk LogLevel.info
             ("No matching collections for " ++ reference)])
      else
        Except.ok (PullOutput.mk
          (some (String.intercalate "\n" resp.digests)) [debug_log])

/-- The `Publish.Request` that `push` assembles (source lines 145–157):
the built collection, workspace resolved to an absolute path, auth
config from the credential resolver. -/
def pushRequest (env : DockerAuthEnv) (cwd workspace reference : String) :
    PublishRequest :=
  let collection := create_collection
  let abs_workspace := abspath cwd workspace
  let auth_config := create_auth_config env reference
  PublishRequest.mk abs_workspace reference collection auth_config

/-- `SampleClient.push` (source lines 126–162): assemble the request,
issue one `PublishContent` RPC, and return the response's digest;
failures are not caught. -/
def push (env : DockerAuthEnv)
    (rpc : PublishRequest → Except GrpcError PublishResponse)
    (cwd workspace reference : String) : Except GrpcError String :=
  match rpc (pushRequest env cwd workspace reference) with
  | Except.error e => Except.error e
  | Except.ok resp => Except.ok resp.digest

/-- Python truthiness of a string: non-empty. -/
def strTruthy (s : String) : Bool :=
  s ≠ ""

/-- The `__main__` startup logic (source lines 166–173):
`if os.getenv("UOR_SOCKET_ADDRESS", None): socket_address = …` — the
environment variable's value is used when present and truthy, otherwise
the default `/var/run/uor.sock` is used. -/
def resolveSocketAddress (env : Option String) : String :=
  match env with
  | some v => if strTruthy v then v else "/var/run/uor.sock"
  | none => "/var/run/uor.sock"

/-- The channel target string (source lines 115 and 159):
`grpc.insecure_channel(f"unix://{self.socket}")`. -/
def channelTarget (socket : String) : String :=
  "unix://" ++ socket

end SampleClientPy

namespace SampleClientPy

/-- A concrete docker auth environment whose store holds no credentials. -/
def testAuthEnv : DockerAuthEnv :=
  DockerAuthEnv.mk (fun _ => "registry.example") (fun _ => none)

/-- A concrete docker auth environment whose store holds one entry,
for the host `registry.example`. -/
def testCredsEnv : DockerAuthEnv :=
  DockerAuthEnv.mk (fun _ => "registry.example")
    (fun r => if r = "registry.example" then some (Creds.mk "alice" "hunter2") else none)

/-- Folding append-of-singletons over a list is a map. -/
theorem foldl_append_singleton {α β : Type} (f : α → β) (l : List α)
    (init : List β) :
    l.foldl (fun acc a => acc ++ [f a]) init = init ++ l.map f := by
  induction l generalizing init with
  | nil => simp
  | cons a l ih => simp [ih]

/-- The files of `create_collection_table` are the table entries mapped
to file records with updated-from-empty attribute structs. -/
theorem create_collection_table_files
    (table : List (String × List (String × PyValue))) :
    (create_collection_table table).files =
      table.map (fun e => File.mk e.1 (structUpdate [] e.2)) := by
  unfold create_collection_table
  exact foldl_append_singleton _ table []

/-- Updating a struct with a dictionary whose keys are fresh and
pairwise distinct appends the dictionary's pairs. -/
theorem structUpdate_append (d : List (String × PyValue)) (s : Struct)
    (hfresh : ∀ kv ∈ d, s.any (fun p => p.1 = kv.1) = false)
    (hnd : (d.map Prod.fst).Nodup) :
    structUpdate s d = s ++ d := by
  induction d generalizing s with
  | nil => simp [structUpdate]
  | cons kv d ih =>
    have hhead : s.any (fun p => p.1 = kv.1) = false :=
      hfresh kv (List.mem_cons_self kv d)
    have hset : setField s kv.1 kv.2 = s ++ [(kv.1, kv.2)] := by
      simp [setField, hhead]
    have hnd0 : kv.1 ∉ d.map Prod.fst ∧ (d.map Prod.fst).Nodup := by
      rw [List.map_cons] at hnd
      exact List.nodup_cons.mp hnd
    have hnotin : kv.1 ∉ d.map Prod.fst := hnd0.1
    have hnd' : (d.map Prod.fst).Nodup := hnd0.2
    have hfresh' : ∀ kv' ∈ d, (s ++ [(kv.1, kv.2)]).any (fun p => p.1 = kv'.1) = false := by
      intro kv' hmem
      have h1 : s.any (fun p => p.1 = kv'.1) = false :=
        hfresh kv' (List.mem_cons_of_mem kv hmem)
      have h2 : kv.1 ≠ kv'.1 := by
        intro heq
        exact hnotin (heq ▸ List.mem_map_of_mem Prod.fst hmem)
      simp [List.any_append, h1, h2]
    have : structUpdate s (kv :: d) = structUpdate (s ++ [(kv.1, kv.2)]) d := by
      simp [structUpdate, hset]
    rw [this, ih _ hfresh' hnd']
    simp

/-- Updating the empty struct with a duplicate-free dictionary yields
exactly that dictionary's pairs. -/
theorem structUpdate_nil (d : List (String × PyValue))
    (hnd : (d.map Prod.fst).Nodup) :
    structUpdate [] d = d := by
  have h := structUpdate_append d [] (by intro kv _; rfl) hnd
  simpa using h

/-- Claim C3: for every non-empty pattern-to-attribute table (with the
duplicate-free keys that Python dictionaries guarantee), the collection
builder produces exactly one file rule per table entry, carrying that
entry's glob pattern and its attribute key/value pairs unchanged. -/
theorem create_collection_preserves_entries
    (table : List (String × List (String × PyValue)))
    (_hne : table ≠ [])
    (hnd : ∀ e ∈ table, (e.2.map Prod.fst).Nodup) :
    (create_collection_table table).files =
      table.map (fun e => File.mk e.1 e.2) := by
  rw [create_collection_table_files]
  exact List.map_congr_left (fun e he => by rw [structUpdate_nil e.2 (hnd e he)])

/-- Witness for C3 at a concrete one-entry table. -/
theorem create_collection_preserves_entries_witness :
    (create_collection_table [("a*", [("k", PyValue.strVal "v")])]).files =
      [File.mk "a*" [("k", PyValue.strVal "v")]] :=
  create_collection_preserves_entries
    [("a*", [("k", PyValue.strVal "v")])] (by simp) (by simp)

end SampleClientPy

namespace SampleClientPy

/-- Appending any string to an absolute path leaves it absolute. -/
theorem isAbsolute_append (s t : String) (h : isAbsolute s = true) :
    isAbsolute (s ++ t) = true := by
  have hd : (s ++ t).data = s.data ++ t.data := String.data_append s t
  rcases hc : s.data with _ | ⟨c, cs⟩
  · simp [isAbsolute, hc] at h
  · have hcons : (s ++ t).data = c :: (cs ++ t.data) := by rw [hd, hc]; rfl
    simp only [isAbsolute, hc] at h
    simp only [isAbsolute, hcons]
    exact h

/-- When the working directory is absolute, `abspath` yields an
absolute path for every input path. -/
theorem abspath_isAbsolute (cwd path : String) (h : isAbsolute cwd = true) :
    isAbsolute (abspath cwd path) = true := by
  unfold abspath
  by_cases hp : isAbsolute path = true
  · rw [if_pos hp]; exact hp
  · rw [if_neg hp]
    first
    | exact isAbsolute_append _ _ h
    | exact isAbsolute_append _ _ (isAbsolute_append _ _ h)

/-- Claim C5: for every pull and every push invocation, the workspace
path argument is converted to an absolute path before being placed in
the request message — as the destination for pull and the source for
push (given, as for any running process, an absolute working
directory). -/
theorem workspace_made_absolute (env : DockerAuthEnv)
    (cwd reference workspace : String)
    (attributes : Option (List (String × PyValue)))
    (h : isAbsolute cwd = true) :
    (pullRequest env cwd reference workspace attributes).destination =
      abspath cwd workspace ∧
    isAbsolute (pullRequest env cwd reference workspace attributes).destination = true ∧
    (pushRequest env cwd workspace reference).source = abspath cwd workspace ∧
    isAbsolute (pushRequest env cwd workspace reference).source = true := by
  refine ⟨rfl, ?_, rfl, ?_⟩ <;> exact abspath_isAbsolute cwd workspace h

/-- Witness for C5 at concrete arguments, with a relative workspace. -/
theorem workspace_made_absolute_witness :
    (pullRequest testAuthEnv "/home/user" "r" "out" none).destination = "/home/user/out" ∧
    isAbsolute (pullRequest testAuthEnv "/home/user" "r" "out" none).destination = true := by
  have h := workspace_made_absolute testAuthEnv "/home/user" "r" "out" none (by decide)
  exact ⟨h.1, h.2.1⟩

/-- Claim C6: with the environment variable unset the client targets
the Unix domain socket `/var/run/uor.sock`; with it set to `/tmp/x.sock`
the client targets that path. -/
theorem socket_address_resolution :
    resolveSocketAddress none = "/var/run/uor.sock" ∧
    resolveSocketAddress (some "/tmp/x.sock") = "/tmp/x.sock" ∧
    channelTarget (resolveSocketAddress none) = "unix:///var/run/uor.sock" ∧
    channelTarget (resolveSocketAddress (some "/tmp/x.sock")) = "unix:///tmp/x.sock" := by
  refine ⟨rfl, ?_, rfl, ?_⟩ <;> simp [resolveSocketAddress, strTruthy, channelTarget]

/-- Claim C8: with the environment variable set to the empty string the
startup check (Python truthiness, not presence) falls back to the
default socket path, exactly as if the variable were unset. -/
theorem socket_address_empty_env :
    resolveSocketAddress (some "") = "/var/run/uor.sock" ∧
    resolveSocketAddress (some "") = resolveSocketAddress none := by
  exact ⟨rfl, rfl⟩

/-- Claim C9: every push sends the same hard-coded collection — the
request's collection is the built one, and it consists of exactly two
file rules, pattern `*.jpg` with attribute `images=true` and pattern
`*.json` with attribute `metadata=true`. -/
theorem push_collection_hard_coded (env : DockerAuthEnv)
    (cwd workspace reference : String) :
    (pushRequest env cwd workspace reference).collection = create_collection ∧
    create_collection.files =
      [File.mk "*.jpg" [("images", PyValue.boolVal true)],
       File.mk "*.json" [("metadata", PyValue.boolVal true)]] := by
  exact ⟨rfl, rfl⟩

end SampleClientPy

namespace SampleClientPy

/-- Claim C1: on a pull whose RetrieveContent response has an empty
digest list, pull returns nothing and its logs include an informational
message; on a non-empty digest list, pull returns the digests joined by
newline. -/
theorem pull_digest_join (env : DockerAuthEnv)
    (rpc : RetrieveRequest → Except GrpcError RetrieveResponse)
    (cwd reference workspace : String)
    (attributes : Option (List (String × PyValue)))
    (resp : RetrieveResponse)
    (h : rpc (pullRequest env cwd reference workspace attributes) = Except.ok resp) :
    (resp.digests = [] →
      pull env rpc cwd reference workspace attributes =
        Except.ok (PullOutput.mk none
          [LogEntry.mk LogLevel.debug
            ("Using output directory " ++
              (pullRequest env cwd reference workspace attributes).destination),
           LogEntry.mk LogLevel.info
            ("No matching collections for " ++ reference)])) ∧
    (resp.digests ≠ [] →
      pull env rpc cwd reference workspace attributes =
        Except.ok (PullOutput.mk
          (some (String.intercalate "\n" resp.digests))
          [LogEntry.mk LogLevel.debug
            ("Using output directory " ++
              (pullRequest env cwd reference workspace attributes).destination)])) := by
  constructor
  · intro he
    simp only [pull]
    rw [h]
    simp [he]
  · intro hne
    have hlen : ¬resp.digests.length = 0 := by
      simpa [List.length_eq_zero] using hne
    simp only [pull]
    rw [h]
    simp [hlen]

/-- Witness for C1: a response with digests d1 and d2 yields the string
joining them with a newline; an empty response yields no value and an
informational log record. -/
theorem pull_digest_join_witness :
    pull testAuthEnv (fun _ => Except.ok (RetrieveResponse.mk ["d1", "d2"]))
        "/home" "ref" "ws" none =
      Except.ok (PullOutput.mk (some "d1\nd2")
        [LogEntry.mk LogLevel.debug "Using output directory /home/ws"]) ∧
    pull testAuthEnv (fun _ => Except.ok (RetrieveResponse.mk []))
        "/home" "ref" "ws" none =
      Except.ok (PullOutput.mk none
        [LogEntry.mk LogLevel.debug "Using output directory /home/ws",
         LogEntry.mk LogLevel.info "No matching collections for ref"]) := by
  constructor
  · exact (pull_digest_join testAuthEnv
      (fun _ => Except.ok (RetrieveResponse.mk ["d1", "d2"]))
      "/home" "ref" "ws" none (RetrieveResponse.mk ["d1", "d2"]) rfl).2 (by simp)
  · exact (pull_digest_join testAuthEnv
      (fun _ => Except.ok (RetrieveResponse.mk []))
      "/home" "ref" "ws" none (RetrieveResponse.mk []) rfl).1 rfl

/-- Claim C2: a push that receives a PublishContent response returns
exactly the digest string carried in that response, unmodified. -/
theorem push_returns_response_digest (env : DockerAuthEnv)
    (rpc : PublishRequest → Except GrpcError PublishResponse)
    (cwd workspace reference : String) (resp : PublishResponse)
    (h : rpc (pushRequest env cwd workspace reference) = Except.ok resp) :
    push env rpc cwd workspace reference = Except.ok resp.digest := by
  simp only [push]
  rw [h]

/-- Witness for C2 at a concrete response. -/
theorem push_returns_response_digest_witness :
    push testAuthEnv (fun _ => Except.ok (PublishResponse.mk "sha256:abc"))
        "/home" "ws" "ref" = Except.ok "sha256:abc" :=
  push_returns_response_digest testAuthEnv
    (fun _ => Except.ok (PublishResponse.mk "sha256:abc"))
    "/home" "ws" "ref" (PublishResponse.mk "sha256:abc") rfl

/-- Claim C4: the credential resolver returns an AuthConfig whose
server address is "https://" followed by the registry host resolved
from the reference whenever the local store has a matching entry for
that host, and returns nothing when no entry matches. -/
theorem create_auth_config_spec (env : DockerAuthEnv) (reference : String) :
    (∀ c, env.lookupCreds (env.resolveRegistry reference) = some c →
      create_auth_config env reference =
        some (AuthConfig.mk ("https://" ++ env.resolveRegistry reference)
          c.username c.password)) ∧
    (env.lookupCreds (env.resolveRegistry reference) = none →
      create_auth_config env reference = none) := by
  constructor
  · intro c hc
    simp [create_auth_config, hc]
  · intro hc
    simp [create_auth_config, hc]

/-- Witness for C4: a store with an entry for the resolved host yields
the HTTPS AuthConfig; an empty store yields nothing. -/
theorem create_auth_config_spec_witness :
    create_auth_config testCredsEnv "registry.example/repo:tag" =
      some (AuthConfig.mk "https://registry.example" "alice" "hunter2") ∧
    create_auth_config testAuthEnv "registry.example/repo:tag" = none := by
  constructor
  · exact (create_auth_config_spec testCredsEnv "registry.example/repo:tag").1
      (Creds.mk "alice" "hunter2") (by simp [testCredsEnv])
  · exact (create_auth_config_spec testAuthEnv "registry.example/repo:tag").2 rfl

/-- Claim C7: an RPC failure during pull or push is not caught or
translated — it propagates unchanged to the caller and no digest value
is returned. -/
theorem rpc_failure_propagates (env : DockerAuthEnv)
    (rpcR : RetrieveRequest → Except GrpcError RetrieveResponse)
    (rpcP : PublishRequest → Except GrpcError PublishResponse)
    (cwd reference workspace : String)
    (attributes : Option (List (String × PyValue))) (e : GrpcError) :
    (rpcR (pullRequest env cwd reference workspace attributes) = Except.error e →
      pull env rpcR cwd reference workspace attributes = Except.error e) ∧
    (rpcP (pushRequest env cwd workspace reference) = Except.error e →
      push env rpcP cwd workspace reference = Except.error e) := by
  constructor
  · intro h
    simp only [pull]
    rw [h]
  · intro h
    simp only [push]
    rw [h]

/-- Witness for C7 with a transport that always fails. -/
theorem rpc_failure_propagates_witness :
    pull testAuthEnv (fun _ => Except.error (GrpcError.mk "connection refused"))
        "/home" "ref" "ws" none =
      Except.error (GrpcError.mk "connection refused") ∧
    push testAuthEnv (fun _ => Except.error (GrpcError.mk "connection refused"))
        "/home" "ws" "ref" =
      Except.error (GrpcError.mk "connection refused") := by
  constructor
  · exact (rpc_failure_propagates testAuthEnv
      (fun _ => Except.error (GrpcError.mk "connection refused"))
      (fun _ => Except.error (GrpcError.mk "connection refused"))
      "/home" "ref" "ws" none (GrpcError.mk "connection refused")).1 rfl
  · exact (rpc_failure_propagates testAuthEnv
      (fun _ => Except.error (GrpcError.mk "connection refused"))
      (fun _ => Except.error (GrpcError.mk "connection refused"))
      "/home" "ref" "ws" none (GrpcError.mk "connection refused")).2 rfl

/-- Claim C10: finding no credentials is not an error — when the
resolver returns nothing, pull and push requests are still built with
an absent auth field, and each RPC proceeds and unwraps its response
normally. -/
theorem missing_credentials_not_error (env : DockerAuthEnv)
    (rpcR : RetrieveRequest → Except GrpcError RetrieveResponse)
    (rpcP : PublishRequest → Except GrpcError PublishResponse)
    (cwd reference workspace : String)
    (attributes : Option (List (String × PyValue)))
    (hnone : create_auth_config env reference = none) :
    (pullRequest env cwd reference workspace attributes).auth = none ∧
    (pushRequest env cwd workspace reference).auth = none ∧
    (∀ resp, rpcR (pullRequest env cwd reference workspace attributes) = Except.ok resp →
      ∃ out, pull env rpcR cwd reference workspace attributes = Except.ok out) ∧
    (∀ resp, rpcP (pushRequest env cwd workspace reference) = Except.ok resp →
      push env rpcP cwd workspace reference = Except.ok resp.digest) := by
  refine ⟨?_, ?_, ?_, ?_⟩
  · simp only [pullRequest]
    exact hnone
  · simp only [pushRequest]
    exact hnone
  · intro resp h
    simp only [pull]
    rw [h]
    by_cases hd : resp.digests.length = 0
    · simp [hd]
    · simp [hd]
  · intro resp h
    simp only [push]
    rw [h]

/-- Witness for C10: a store without credentials still yields a sent
request (absent auth) and a normal response. -/
theorem missing_credentials_not_error_witness :
    (pullRequest testAuthEnv "/home" "ref" "ws" none).auth = none ∧
    (pushRequest testAuthEnv "/home" "ws" "ref").auth = none ∧
    push testAuthEnv (fun _ => Except.ok (PublishResponse.mk "sha256:xyz"))
        "/home" "ws" "ref" = Except.ok "sha256:xyz" := by
  have h := missing_credentials_not_error testAuthEnv
    (fun _ => Except.ok (RetrieveResponse.mk []))
    (fun _ => Except.ok (PublishResponse.mk "sha256:xyz"))
    "/home" "ref" "ws" none rfl
  exact ⟨h.1, h.2.1, h.2.2.2 (PublishResponse.mk "sha256:xyz") rfl⟩

end SampleClientPy
